import Mathlib

/-!
Verification development for the `resilientEventListener` of this repository
(a self-healing WebSocket subscription client, `src/resilientEventListener.ts`).

The TypeScript source is shallowly embedded as a deterministic state machine:

* `JsonVal` models the JavaScript values flowing through `JSON.parse` and the
  message handler, with JS member access (`x.f`, `x?.f`) and strict equality
  (`===`) embedded as executable functions.
* `Sys` models the closure state of one listener instance (`ws`, `stopped`,
  `reconnectDelay`, `keepAliveInterval`, `pingTimeout`, the per-connection
  `subscriptionId`) together with the Node timer environment (current time,
  the set of pending timers) and observational instrumentation (counts of
  connection attempts, scheduled reconnect delays, callback invocations,
  invocations of the configured log sink, uncaught handler exceptions, ...).
* `step` processes one environment event: a transport event (`open`, `close`,
  `error`, a message frame, an unexpected pre-handshake response), a timer
  firing (legal only once its deadline has been reached), the passage of
  time, or a `stop()` call by the consumer.

Every branch of every handler is translated from the source; the
instrumentation fields are write-only ghosts that never influence control
flow.
-/

namespace REL

/-- JavaScript/JSON values as delivered by `JSON.parse` and stored in the
listener's variables.  `undefined` is included because the source freely
reads absent properties and compares the results with `===`. -/
inductive JsonVal : Type where
  | undefined : JsonVal
  | null : JsonVal
  | bool : Bool → JsonVal
  | num : Int → JsonVal
  | str : String → JsonVal
  | obj : List (String × JsonVal) → JsonVal
  | arr : List JsonVal → JsonVal

/-- JS truthiness, used by the source's `if (args.log)` guard. -/
def truthy : JsonVal → Bool
  | .undefined => false
  | .null => false
  | .bool b => b
  | .num n => n != 0
  | .str s => s != ""
  | .obj _ => true
  | .arr _ => true

/-- Whether a value is `null` or `undefined` (member access on such a value
throws a `TypeError` in JS). -/
def nullish : JsonVal → Bool
  | .undefined => true
  | .null => true
  | _ => false

/-- Member access `v.k` on a value already known to be non-nullish.  Objects
yield the named field (or `undefined` when absent); arrays expose `length`
but no other named own property (no call site reads a numeric index);
primitive values have none of the properties read by the source, so access
yields `undefined`. -/
def jsProp : JsonVal → String → JsonVal
  | .obj fs, k => (List.lookup k fs).getD .undefined
  | .arr xs, k => if k = "length" then .num xs.length else .undefined
  | _, _ => .undefined

/-- Optional-chained member access `v?.k`: `undefined` on a nullish receiver,
plain access otherwise. -/
def jsPropOpt (v : JsonVal) (k : String) : JsonVal :=
  if nullish v then .undefined else jsProp v k

/-- JS strict equality `===` restricted to the comparisons the source makes.
Primitives compare structurally; two objects (or arrays) compare by
reference, and since `subscriptionId` and every inbound message are produced
by distinct `JSON.parse` calls, an object never compares equal to another
object here.  Values of different types are never strictly equal. -/
def jsEqB : JsonVal → JsonVal → Bool
  | .undefined, .undefined => true
  | .null, .null => true
  | .bool a, .bool b => a == b
  | .num a, .num b => a == b
  | .str a, .str b => a == b
  | _, _ => false

/-- Log severities of the source's `LogLevel` type. -/
inductive LogLevel : Type where
  | debug : LogLevel
  | info : LogLevel
  | warn : LogLevel
  | error : LogLevel
deriving DecidableEq, Repr

/-- The construction-time configuration (`ResilientEventListenerArgs`).
`rpcUrl`, `contractAddress`, `abi` and `eventName` only feed the external
`ethers` objects and the wire payloads, so they are not carried here;
`decode` stands for the external `contract.interface.parseLog`, which per
the interface boundary returns a domain event or `null` (modelled as
`Option`).  `keepAliveCheckInterval`/`expectedPongBack` are `Nat`s where `0`
plays the role of the absent/falsy value that the source's `||` replaces by
the default.  `hasLogSink` records whether the caller supplied a `log` sink
and `hasCallback` whether it supplied a `callback`. -/
structure Config : Type where
  keepAliveCheckInterval : Nat := 0
  expectedPongBack : Nat := 0
  hasLogSink : Bool := true
  hasCallback : Bool := true
  decode : JsonVal → Option JsonVal := fun _ => none

/-- `DEFAULT_EXPECTED_PONG_BACK`. -/
def DEFAULT_EXPECTED_PONG_BACK : Nat := 15000

/-- `DEFAULT_KEEP_ALIVE_CHECK_INTERVAL`. -/
def DEFAULT_KEEP_ALIVE_CHECK_INTERVAL : Nat := 60 * 1000

/-- `args.keepAliveCheckInterval || DEFAULT_KEEP_ALIVE_CHECK_INTERVAL`. -/
def effKeepAlive (cfg : Config) : Nat :=
  if cfg.keepAliveCheckInterval = 0 then DEFAULT_KEEP_ALIVE_CHECK_INTERVAL
  else cfg.keepAliveCheckInterval

/-- `args.expectedPongBack || DEFAULT_EXPECTED_PONG_BACK`. -/
def effPong (cfg : Config) : Nat :=
  if cfg.expectedPongBack = 0 then DEFAULT_EXPECTED_PONG_BACK
  else cfg.expectedPongBack

/-- WebSocket ready states. -/
inductive RS : Type where
  | connecting : RS
  | open : RS
  | closing : RS
deriving DecidableEq, Repr

/-- One live WebSocket handle together with the `connect()`-scoped
`let subscriptionId` variable captured by that connection's handlers. -/
structure ConnHandle : Type where
  readyState : RS
  subscriptionId : JsonVal

/-- What a Node timer callback will do when it fires: the reconnect
`setTimeout(connect, reconnectDelay)`, the keep-alive `setInterval`
callback, or the ping-deadline `setTimeout` that terminates the socket. -/
inductive TimerKind : Type where
  | reconnect : TimerKind
  | keepAliveTick : TimerKind
  | pingDeadline : TimerKind
deriving DecidableEq, Repr

/-- A pending Node timer: its handle id, absolute deadline, callback kind,
and — for `setInterval` timers — the re-arming period. -/
structure Timer : Type where
  id : Nat
  fireAt : Nat
  kind : TimerKind
  rearm : Option Nat
deriving DecidableEq, Repr

/-- Lifecycle observations used to compare the implementation against the
spec's backoff description: a successful open, a close processed with the
stopped flag clear, a close processed with it set. -/
inductive LifeEv : Type where
  | opened : LifeEv
  | closedLive : LifeEv
  | closedStopped : LifeEv
deriving DecidableEq, Repr

/-- The full state of one listener instance plus its timer environment.

Closure variables of the source: `ws`, `stopped`, `reconnectDelay`,
`keepAliveInterval`, `pingTimeout` (the two handle variables are `Option`
timer ids; the source never nulls them on close/stop, only inside the pong
branch, and we model exactly that).  `now`, `timers`, `nextTimerId` model
the Node event loop.  The remaining fields are write-only observations. -/
structure Sys : Type where
  now : Nat
  nextTimerId : Nat
  timers : List Timer
  ws : Option ConnHandle
  stopped : Bool
  reconnectDelay : Nat
  keepAliveInterval : Option Nat
  pingTimeout : Option Nat
  connectAttempts : Nat
  scheduledReconnects : List Nat
  lifeLog : List LifeEv
  terminations : Nat
  pingsSent : Nat
  callbackCalls : List (Option JsonVal)
  sinkCalls : Nat
  internalLogLevels : List LogLevel
  uncaughtErrors : Nat

/-- The internal `log` helper of the source:
`const log = (level, message, ...args) => { if (args.log) { args.log(level, msg, ...args) } }`.
The rest parameter `args` shadows the configuration object, so `args.log`
is member access on the rest-argument array; the returned list contains the
sink invocations the helper performs. -/
def logHelper (level : LogLevel) (message : String) (restArgs : List JsonVal) :
    List (LogLevel × String) :=
  let argsLocal : JsonVal := .arr restArgs
  if truthy (jsProp argsLocal "log") then [(level, message)] else []

/-- Run one `log(level, message, ...rest)` call: record the call to the
helper and count any sink invocations it performs. -/
def emitLog (s : Sys) (level : LogLevel) (message : String)
    (rest : List JsonVal) : Sys :=
  { s with internalLogLevels := s.internalLogLevels ++ [level],
           sinkCalls := s.sinkCalls + (logHelper level message rest).length }

/-- `clearTimeout h` / `clearInterval h`: remove the pending timer with this
handle id, if any. -/
def eraseTimer (ts : List Timer) (h : Nat) : List Timer :=
  ts.filter (fun t => t.id != h)

/-- Clear a timer through an optional handle variable
(`if (handle) clearTimeout(handle)`). -/
def eraseTimerOpt (ts : List Timer) : Option Nat → List Timer
  | none => ts
  | some h => eraseTimer ts h

/-- The body of `connect()`: bail out if stopped, otherwise construct a new
WebSocket (counted in `connectAttempts`) with a fresh connection scope.  The
`new Contract`/`topicHash` computation and handler registration have no
state effect. -/
def connectFn (s : Sys) : Sys :=
  if s.stopped then
    emitLog s .info "Listener stopped, not reconnecting." []
  else
    let s1 := emitLog s .info "Connecting to WebSocket" []
    let s2 := { s1 with
      ws := some { readyState := .connecting, subscriptionId := .undefined },
      connectAttempts := s1.connectAttempts + 1 }
    emitLog s2 .debug "Subscribing to event listener" []

/-- `ws.onopen`: reset the reconnect delay, send the subscribe request, and
arm the keep-alive `setInterval`.  Fires only on the current connecting
socket. -/
def onopenFn (cfg : Config) (s : Sys) : Sys :=
  match s.ws with
  | some c =>
    if c.readyState = .connecting then
      let s1 := emitLog s .info "WebSocket connection opened." []
      { s1 with
        reconnectDelay := 1000,
        timers := s1.timers ++
          [⟨s1.nextTimerId, s1.now + effKeepAlive cfg, .keepAliveTick,
            some (effKeepAlive cfg)⟩],
        keepAliveInterval := some s1.nextTimerId,
        nextTimerId := s1.nextTimerId + 1,
        ws := some { c with readyState := .open },
        lifeLog := s1.lifeLog ++ [.opened] }
    else s
  | none => s

/-- The keep-alive `setInterval` callback: when the socket is open, send the
ping and arm a fresh ping-deadline `setTimeout`, overwriting the
`pingTimeout` handle variable WITHOUT clearing any timer it still
referenced (exactly as the source does). -/
def keepAliveTickFn (cfg : Config) (s : Sys) : Sys :=
  match s.ws with
  | some c =>
    if c.readyState = .open then
      let s1 := emitLog s .debug "Performing health check" []
      { s1 with
        pingsSent := s1.pingsSent + 1,
        timers := s1.timers ++
          [⟨s1.nextTimerId, s1.now + effPong cfg, .pingDeadline, none⟩],
        pingTimeout := some s1.nextTimerId,
        nextTimerId := s1.nextTimerId + 1 }
    else s
  | none => s

/-- The ping-deadline `setTimeout` callback: `if (ws) ws.terminate()`. -/
def pingDeadlineFn (s : Sys) : Sys :=
  match s.ws with
  | some c =>
    let s1 := emitLog s .warn "Ping timeout, terminating WebSocket connection." []
    { s1 with
      terminations := s1.terminations + 1,
      ws := some { c with readyState := .closing } }
  | none => s

/-- The message-classification body of `ws.onmessage` after a successful
parse, acting on the connection scope `c` of the current socket. -/
def dispatch (cfg : Config) (s : Sys) (c : ConnHandle) (v : JsonVal) : Sys :=
  if jsEqB (jsPropOpt v "id") (.num 1) then
    -- parsedData?.id === request.id: record the subscription id
    let s1 := { s with
      ws := some { c with subscriptionId := jsProp v "result" } }
    emitLog s1 .info "Subscription established" []
  else if jsEqB (jsPropOpt v "id") (.num 2) &&
      jsEqB (jsPropOpt v "result") (.bool true) then
    -- parsedData?.id === ping.id && parsedData?.result === true
    let s1 := emitLog s .debug "Health check successful." []
    match s1.pingTimeout with
    | some h =>
      { s1 with timers := eraseTimer s1.timers h, pingTimeout := none }
    | none => s1
  else if jsEqB (jsPropOpt v "method") (.str "eth_subscription") then
    -- the second conjunct parsedData.params.subscription is evaluated with
    -- plain member access: it throws when params is null/undefined
    if nullish (jsProp v "params") then
      { s with uncaughtErrors := s.uncaughtErrors + 1 }
    else if jsEqB (jsProp (jsProp v "params") "subscription")
        c.subscriptionId then
      let ev := cfg.decode (jsProp (jsProp v "params") "result")
      let s1 := emitLog s .info "Received event" []
      if cfg.hasCallback then
        { s1 with callbackCalls := s1.callbackCalls ++ [ev] }
      else s1
    else s
  else s

/-- An inbound frame: a text or Buffer frame together with the outcome of
the external `JSON.parse` on its payload (`none` = the parse throws), or a
frame of an unexpected data type. -/
inductive WsData : Type where
  | strFrame : Option JsonVal → WsData
  | bufFrame : Option JsonVal → WsData
  | otherFrame : WsData

/-- `ws.onmessage`: parse (with the catch logging parse failures and the
unexpected-type branch logging a warning), then classify. -/
def onmessageFn (cfg : Config) (s : Sys) (d : WsData) : Sys :=
  match s.ws with
  | none => s
  | some c =>
    match d with
    | .otherFrame =>
      emitLog s .warn "Received unexpected data type from WebSocket." [.undefined]
    | .strFrame none =>
      emitLog s .error "Failed to parse JSON from WebSocket message." [.undefined]
    | .bufFrame none =>
      emitLog s .error "Failed to parse JSON from WebSocket message." [.undefined]
    | .strFrame (some v) => dispatch cfg s c v
    | .bufFrame (some v) => dispatch cfg s c v

/-- `ws.onclose`: clear the two probe timers through their (possibly stale)
handles, drop the socket, and — unless stopped — schedule a reconnect at the
current delay and then double it, capped at 30000 ms.  The handle of the
reconnect `setTimeout` is discarded, exactly as in the source. -/
def oncloseFn (s : Sys) : Sys :=
  match s.ws with
  | none => s
  | some _ =>
    let s1 := emitLog s .info "WebSocket connection closed." []
    let s2 := { s1 with
      timers := eraseTimerOpt (eraseTimerOpt s1.timers s1.keepAliveInterval)
        s1.pingTimeout,
      ws := none }
    if s2.stopped then { s2 with lifeLog := s2.lifeLog ++ [.closedStopped] }
    else
      { s2 with
        lifeLog := s2.lifeLog ++ [.closedLive],
        timers := s2.timers ++
          [⟨s2.nextTimerId, s2.now + s2.reconnectDelay, .reconnect, none⟩],
        nextTimerId := s2.nextTimerId + 1,
        scheduledReconnects := s2.scheduledReconnects ++ [s2.reconnectDelay],
        reconnectDelay := min (s2.reconnectDelay * 2) 30000 }

/-- `stop()`: set the stopped flag, close and drop any live socket, and
clear the keep-alive and ping-deadline timers through their handle
variables.  No reconnect-timer handle exists to clear. -/
def stopFn (s : Sys) : Sys :=
  let s1 := emitLog s .info "Stopping resilient event listener." []
  let s2 := { s1 with stopped := true, ws := none }
  { s2 with
    timers := eraseTimerOpt (eraseTimerOpt s2.timers s2.keepAliveInterval)
      s2.pingTimeout }

/-- The `'unexpected-response'` handler: log and `stop()`. -/
def unexpectedResponseFn (s : Sys) : Sys :=
  match s.ws with
  | some _ => stopFn (emitLog s .error "Unexpected server response" [])
  | none => s

/-- Fire a pending timer: legal only when the timer exists and its deadline
has been reached; a one-shot timer is consumed, an interval re-arms one
period later, and then the timer's callback runs. -/
def fireTimerFn (cfg : Config) (s : Sys) (tid : Nat) : Sys :=
  match s.timers.find? (fun t => t.id == tid) with
  | none => s
  | some t =>
    if t.fireAt ≤ s.now then
      let s1 := { s with
        timers := eraseTimer s.timers t.id ++
          (match t.rearm with
           | some p => [⟨t.id, t.fireAt + p, t.kind, some p⟩]
           | none => []) }
      match t.kind with
      | .reconnect => connectFn s1
      | .keepAliveTick => keepAliveTickFn cfg s1
      | .pingDeadline => pingDeadlineFn s1
    else s

/-- Environment events driving one listener instance. -/
inductive MEv : Type where
  | elapse : Nat → MEv
  | openEv : MEv
  | closeEv : MEv
  | errorEv : MEv
  | msgEv : WsData → MEv
  | fireTimer : Nat → MEv
  | stopCall : MEv
  | unexpectedResponse : MEv

/-- Process one environment event. -/
def step (cfg : Config) (s : Sys) : MEv → Sys
  | .elapse dt => { s with now := s.now + dt }
  | .openEv => onopenFn cfg s
  | .closeEv => oncloseFn s
  | .errorEv =>
    match s.ws with
    | some _ => emitLog s .error "WebSocket error" [.undefined]
    | none => s
  | .msgEv d => onmessageFn cfg s d
  | .fireTimer tid => fireTimerFn cfg s tid
  | .stopCall => stopFn s
  | .unexpectedResponse => unexpectedResponseFn s

/-- The state of a freshly created listener instance, before the initial
`connect()` call: the closure variables at their initialisers. -/
def initSys : Sys where
  now := 0
  nextTimerId := 0
  timers := []
  ws := none
  stopped := false
  reconnectDelay := 1000
  keepAliveInterval := none
  pingTimeout := none
  connectAttempts := 0
  scheduledReconnects := []
  lifeLog := []
  terminations := 0
  pingsSent := 0
  callbackCalls := []
  sinkCalls := 0
  internalLogLevels := []
  uncaughtErrors := 0

/-- `resilientEventListener(args)`: initialise the closure state and run the
initial `connect()`. -/
def start : Sys := connectFn initSys

/-- Run a trace of environment events from an arbitrary state. -/
def runFrom (cfg : Config) (s : Sys) (evs : List MEv) : Sys :=
  evs.foldl (step cfg) s

/-- Run a trace of environment events from a freshly created listener. -/
def runTrace (cfg : Config) (evs : List MEv) : Sys :=
  runFrom cfg start evs

/-! ### The internal log helper never reaches its sink call -/

theorem logHelper_nil (level : LogLevel) (message : String)
    (rest : List JsonVal) : logHelper level message rest = [] := by
  simp [logHelper, jsProp, truthy]

theorem emitLog_eq (s : Sys) (level : LogLevel) (message : String)
    (rest : List JsonVal) :
    emitLog s level message rest =
      { s with internalLogLevels := s.internalLogLevels ++ [level] } := by
  simp [emitLog, logHelper_nil]

theorem step_sinkCalls (cfg : Config) (s : Sys) (e : MEv) :
    (step cfg s e).sinkCalls = s.sinkCalls := by
  cases e <;>
    simp only [step, onopenFn, oncloseFn, onmessageFn, dispatch, stopFn,
      unexpectedResponseFn, fireTimerFn, connectFn, keepAliveTickFn,
      pingDeadlineFn, emitLog_eq] <;>
    (repeat' split) <;> rfl

theorem runFrom_sinkCalls (cfg : Config) (s : Sys) (tr : List MEv) :
    (runFrom cfg s tr).sinkCalls = s.sinkCalls := by
  induction tr generalizing s with
  | nil => rfl
  | cons e tr ih => rw [runFrom, List.foldl_cons, ← runFrom, ih, step_sinkCalls]

/-! ### The spec's backoff description, and its refinement by the code -/

/-- One step of the backoff sequence exactly as the spec words it: the k-th
close since the last successful open (not preceded by `stop()`) is assigned
the delay `min (1000 * 2 ^ k) 30000` — "1s, 2s, 4s, ..., capped at 30s" —
and any successful open restarts the sequence.  This definition follows the
spec's words, to be compared with the machine above. -/
def specStep : Nat × List Nat → LifeEv → Nat × List Nat
  | (_, ds), .opened => (0, ds)
  | (k, ds), .closedStopped => (k, ds)
  | (k, ds), .closedLive => (k + 1, ds ++ [min (1000 * 2 ^ k) 30000])

/-- The spec-side backoff state over a lifecycle log: the position in the
1s, 2s, 4s, ... sequence and the delays assigned so far. -/
def specState (l : List LifeEv) : Nat × List Nat :=
  l.foldl specStep (0, [])

/-- The reconnect delays the spec assigns to a lifecycle log. -/
def specBackoff (l : List LifeEv) : List Nat :=
  (specState l).2

theorem specState_append (l : List LifeEv) (e : LifeEv) :
    specState (l ++ [e]) = specStep (specState l) e := by
  simp [specState, List.foldl_append]

theorem specStep_opened (p : Nat × List Nat) : specStep p .opened = (0, p.2) :=
  rfl

theorem specStep_closedStopped (p : Nat × List Nat) :
    specStep p .closedStopped = p :=
  rfl

theorem specStep_closedLive (p : Nat × List Nat) :
    specStep p .closedLive =
      (p.1 + 1, p.2 ++ [min (1000 * 2 ^ p.1) 30000]) :=
  rfl

/-- Doubling commutes with the 30000 cap. -/
theorem min_double_cap (a : Nat) :
    min (min a 30000 * 2) 30000 = min (a * 2) 30000 := by
  omega

/-- The coupling invariant between the listener and the spec's backoff
description: the scheduled delays so far are exactly the spec's, and the
`reconnectDelay` variable holds the spec's next delay. -/
def BackInv (s : Sys) : Prop :=
  specBackoff s.lifeLog = s.scheduledReconnects ∧
  s.reconnectDelay = min (1000 * 2 ^ (specState s.lifeLog).1) 30000

theorem backInv_congr {s s' : Sys}
    (h1 : s'.scheduledReconnects = s.scheduledReconnects)
    (h2 : s'.reconnectDelay = s.reconnectDelay) (h3 : s'.lifeLog = s.lifeLog)
    (h : BackInv s) : BackInv s' := by
  unfold BackInv specBackoff at *
  rw [h1, h2, h3]
  exact h

/-- Every event other than `open`/`close` leaves the backoff-relevant fields
untouched. -/
theorem stepQuiet_backFields (cfg : Config) (s : Sys) (e : MEv) :
    ((step cfg s e).scheduledReconnects = s.scheduledReconnects ∧
     (step cfg s e).reconnectDelay = s.reconnectDelay ∧
     (step cfg s e).lifeLog = s.lifeLog) ∨ e = .openEv ∨ e = .closeEv := by
  cases e
  case openEv => right; left; rfl
  case closeEv => right; right; rfl
  all_goals left
  all_goals
    simp only [step, onmessageFn, dispatch, stopFn, unexpectedResponseFn,
      fireTimerFn, connectFn, keepAliveTickFn, pingDeadlineFn]
  all_goals refine ⟨?_, ?_, ?_⟩ <;> (repeat' split) <;> (first | rfl | trivial)

theorem step_BackInv (cfg : Config) (s : Sys) (e : MEv) (h : BackInv s) :
    BackInv (step cfg s e) := by
  rcases stepQuiet_backFields cfg s e with ⟨h1, h2, h3⟩ | he | he
  · exact backInv_congr h1 h2 h3 h
  · subst he
    show BackInv (onopenFn cfg s)
    unfold onopenFn
    split
    · split
      · obtain ⟨h1, h2⟩ := h
        constructor
        · show specBackoff (s.lifeLog ++ [.opened]) = s.scheduledReconnects
          unfold specBackoff
          rw [specState_append, specStep_opened]
          exact h1
        · show (1000 : Nat) = _
          rw [specState_append, specStep_opened]
          rfl
      · exact h
    · exact h
  · subst he
    show BackInv (oncloseFn s)
    obtain ⟨h1, h2⟩ := h
    unfold oncloseFn
    split
    · exact ⟨h1, h2⟩
    · rcases hst : s.stopped with _ | _
      · simp only [emitLog_eq, hst, Bool.false_eq_true, if_false]
        constructor
        · show specBackoff (s.lifeLog ++ [.closedLive]) =
            s.scheduledReconnects ++ [s.reconnectDelay]
          unfold specBackoff at h1 ⊢
          rw [specState_append, specStep_closedLive, h1, h2]
        · show min (s.reconnectDelay * 2) 30000 =
            min (1000 * 2 ^ (specState (s.lifeLog ++ [.closedLive])).1) 30000
          rw [specState_append, specStep_closedLive]
          show min (s.reconnectDelay * 2) 30000 =
            min (1000 * 2 ^ ((specState s.lifeLog).1 + 1)) 30000
          rw [h2, min_double_cap, pow_succ, ← Nat.mul_assoc]
      · simp only [emitLog_eq, hst, if_true]
        constructor
        · show specBackoff (s.lifeLog ++ [.closedStopped]) = s.scheduledReconnects
          unfold specBackoff at h1 ⊢
          rw [specState_append, specStep_closedStopped]
          exact h1
        · show s.reconnectDelay =
            min (1000 * 2 ^ (specState (s.lifeLog ++ [.closedStopped])).1) 30000
          rw [specState_append, specStep_closedStopped]
          exact h2

theorem start_BackInv : BackInv start := by
  constructor <;> rfl

theorem runFrom_BackInv (cfg : Config) (tr : List MEv) :
    ∀ s : Sys, BackInv s → BackInv (runFrom cfg s tr) := by
  induction tr with
  | nil => exact fun s h => h
  | cons e t ih => exact fun s h => ih (step cfg s e) (step_BackInv cfg s e h)

/-- Number of closes processed with the stopped flag clear. -/
def countLiveCloses (l : List LifeEv) : Nat :=
  l.countP (fun e => e == LifeEv.closedLive)

theorem specBackoff_length_aux (l : List LifeEv) :
    ∀ (k : Nat) (ds : List Nat),
      ((l.foldl specStep (k, ds)).2).length = ds.length + countLiveCloses l := by
  induction l with
  | nil => intro k ds; simp [countLiveCloses]
  | cons e t ih =>
    intro k ds
    cases e <;>
      simp [specStep, ih, countLiveCloses, List.countP_cons] <;> omega

theorem specBackoff_length (l : List LifeEv) :
    (specBackoff l).length = countLiveCloses l := by
  simpa using specBackoff_length_aux l 0 []

/-- C1: for every event trace, the reconnect delays the listener schedules
are exactly the delays the spec's backoff description assigns to the
observed lifecycle (one per close processed with the stopped flag clear,
following `min (1000 * 2 ^ k) 30000`, i.e. 1s, 2s, 4s, ..., capped at 30s,
with `k` reset by every successful open); in particular exactly one
reconnect is scheduled per such close. -/
theorem c1_backoff_refines_spec (cfg : Config) (tr : List MEv) :
    (runTrace cfg tr).scheduledReconnects =
      specBackoff (runTrace cfg tr).lifeLog ∧
    (runTrace cfg tr).scheduledReconnects.length =
      countLiveCloses (runTrace cfg tr).lifeLog := by
  have h : BackInv (runTrace cfg tr) := runFrom_BackInv cfg tr start start_BackInv
  refine ⟨h.1.symm, ?_⟩
  rw [← h.1]
  exact specBackoff_length (runTrace cfg tr).lifeLog

/-! ### stop(): the stopped flag is absorbing and stops connection attempts -/

theorem step_stopped_attempts (cfg : Config) (s : Sys) (e : MEv)
    (h : s.stopped = true) :
    (step cfg s e).stopped = true ∧
    (step cfg s e).connectAttempts = s.connectAttempts := by
  cases e <;>
    simp only [step, onopenFn, oncloseFn, onmessageFn, dispatch, stopFn,
      unexpectedResponseFn, fireTimerFn, connectFn, keepAliveTickFn,
      pingDeadlineFn]
  all_goals refine ⟨?_, ?_⟩ <;> (repeat' split) <;>
    (first | rfl | trivial | exact h | simp_all)

theorem runFrom_stopped_attempts (cfg : Config) (s : Sys) (tr : List MEv)
    (h : s.stopped = true) :
    (runFrom cfg s tr).stopped = true ∧
    (runFrom cfg s tr).connectAttempts = s.connectAttempts := by
  induction tr generalizing s with
  | nil => exact ⟨h, rfl⟩
  | cons e t ih =>
    have hs := step_stopped_attempts cfg s e h
    have ht := ih (step cfg s e) hs.1
    refine ⟨ht.1, ?_⟩
    show (runFrom cfg (step cfg s e) t).connectAttempts = s.connectAttempts
    rw [ht.2, hs.2]

/-- C2: from any listener state, once `stop()` has run, no continuation
trace — whatever pending timers it fires, including reconnect timers armed
before the stop — performs another connection attempt (`new WebSocket`). -/
theorem c2_stop_prevents_connects (cfg : Config) (s : Sys) (tr : List MEv) :
    (runFrom cfg (step cfg s .stopCall) tr).connectAttempts =
      (step cfg s .stopCall).connectAttempts :=
  (runFrom_stopped_attempts cfg (step cfg s .stopCall) tr rfl).2

/-- A configuration used by the concrete runs below: 10 s keep-alive
interval, 15 s pong timeout, a caller-supplied log sink and callback, and a
decode function that recognizes nothing. -/
def cfgA : Config where
  keepAliveCheckInterval := 10000
  expectedPongBack := 15000
  hasLogSink := true
  hasCallback := true
  decode := fun _ => none

/-- C9 counterexample: create a listener, let its first connection close
(scheduling a reconnect in 1000 ms), then call `stop()`.  After `stop()`
returns, the reconnect timer is still scheduled — `stop()` clears only the
keep-alive and ping-deadline handles, and the reconnect `setTimeout` handle
was never stored — refuting the claim that no reconnect timer remains. -/
theorem c9_counterexample :
    ((runTrace cfgA [.closeEv, .stopCall]).timers.filter
      (fun t => t.kind == TimerKind.reconnect)).length = 1 ∧
    (runTrace cfgA [.closeEv, .stopCall]).stopped = true := by
  exact ⟨rfl, rfl⟩

theorem mem_eraseTimerOpt {t : Timer} {ts : List Timer} (o : Option Nat)
    (ht : t ∈ ts) (hne : o ≠ some t.id) : t ∈ eraseTimerOpt ts o := by
  cases o with
  | none => exact ht
  | some h =>
    refine List.mem_filter.2 ⟨ht, ?_⟩
    have : h ≠ t.id := fun hh => hne (by rw [hh])
    simpa [eraseTimer, bne_iff_ne] using fun hh => this hh.symm

/-- C9 amended: `stop()` does not cancel a pending reconnect timer (it
clears only the keep-alive and ping-deadline handles); the reconnect timer
survives the stop, and when it fires afterwards `connect()` observes the
stopped flag and performs no connection attempt. -/
theorem c9_stop_leaves_reconnect_timer (cfg : Config) (s : Sys) (t : Timer)
    (ht : t ∈ s.timers) (hka : s.keepAliveInterval ≠ some t.id)
    (hpt : s.pingTimeout ≠ some t.id) :
    t ∈ (step cfg s .stopCall).timers ∧
    (runFrom cfg (step cfg s .stopCall) [.fireTimer t.id]).connectAttempts =
      (step cfg s .stopCall).connectAttempts := by
  constructor
  · show t ∈ (stopFn s).timers
    unfold stopFn
    simp only [emitLog_eq]
    exact mem_eraseTimerOpt _ (mem_eraseTimerOpt _ ht hka) hpt
  · exact
      (step_stopped_attempts cfg (step cfg s .stopCall) (.fireTimer t.id) rfl).2

/-- Witness for the amended C9 at a concrete run: the reconnect timer armed
by the first close survives `stop()`, and firing it attempts no
connection. -/
theorem c9_stop_leaves_reconnect_timer_witness :
    (⟨0, 1000, .reconnect, none⟩ : Timer) ∈
      (step cfgA (runTrace cfgA [.closeEv]) .stopCall).timers ∧
    (runFrom cfgA (step cfgA (runTrace cfgA [.closeEv]) .stopCall)
      [.fireTimer (0 : Nat)]).connectAttempts =
      (step cfgA (runTrace cfgA [.closeEv]) .stopCall).connectAttempts :=
  c9_stop_leaves_reconnect_timer cfgA (runTrace cfgA [.closeEv])
    ⟨0, 1000, .reconnect, none⟩ (by decide) (by decide) (by decide)

/-! ### Liveness probe timeout: forced termination and exactly one reconnect -/

/-- C3: when a liveness probe is outstanding (`pingTimeout` holds the handle
of a pending forced-termination timer) and its deadline has passed with no
matching pong having cleared it, firing the timer forcibly terminates the
connection, and the resulting close — with the listener not stopped —
schedules exactly one reconnect, at the current backoff delay. -/
theorem c3_probe_timeout_forces_reconnect (cfg : Config) (s : Sys)
    (c : ConnHandle) (h fa : Nat)
    (hws : s.ws = some c)
    (_hpt : s.pingTimeout = some h)
    (hfind : s.timers.find? (fun t => t.id == h) =
      some ⟨h, fa, .pingDeadline, none⟩)
    (hdue : fa ≤ s.now)
    (hstop : s.stopped = false) :
    (runFrom cfg s [.fireTimer h, .closeEv]).terminations =
      s.terminations + 1 ∧
    (runFrom cfg s [.fireTimer h, .closeEv]).scheduledReconnects =
      s.scheduledReconnects ++ [s.reconnectDelay] := by
  have hstep1 : step cfg s (.fireTimer h) =
      { s with timers := eraseTimer s.timers h,
               internalLogLevels := s.internalLogLevels ++ [.warn],
               terminations := s.terminations + 1,
               ws := some { c with readyState := .closing } } := by
    show fireTimerFn cfg s h = _
    unfold fireTimerFn
    rw [hfind]
    dsimp only
    rw [if_pos hdue]
    unfold pingDeadlineFn
    dsimp only
    rw [hws]
    dsimp only
    rw [emitLog_eq]
    simp
  show (step cfg (step cfg s (.fireTimer h)) .closeEv).terminations = _ ∧
    (step cfg (step cfg s (.fireTimer h)) .closeEv).scheduledReconnects = _
  rw [hstep1]
  show (oncloseFn _).terminations = _ ∧ (oncloseFn _).scheduledReconnects = _
  unfold oncloseFn
  simp [emitLog_eq, hstop]

/-- Witness for C3 at a concrete run: the first keep-alive tick sends a
probe at 10 s, no pong arrives, and at 25 s the deadline timer fires. -/
theorem c3_probe_timeout_forces_reconnect_witness :
    (runFrom cfgA
      (runTrace cfgA [.openEv, .elapse 10000, .fireTimer 0, .elapse 15000])
      [.fireTimer 1, .closeEv]).terminations =
      (runTrace cfgA
        [.openEv, .elapse 10000, .fireTimer 0, .elapse 15000]).terminations
        + 1 ∧
    (runFrom cfgA
      (runTrace cfgA [.openEv, .elapse 10000, .fireTimer 0, .elapse 15000])
      [.fireTimer 1, .closeEv]).scheduledReconnects =
      (runTrace cfgA
        [.openEv, .elapse 10000, .fireTimer 0,
          .elapse 15000]).scheduledReconnects ++
        [(runTrace cfgA
          [.openEv, .elapse 10000, .fireTimer 0,
            .elapse 15000]).reconnectDelay] :=
  c3_probe_timeout_forces_reconnect cfgA
    (runTrace cfgA [.openEv, .elapse 10000, .fireTimer 0, .elapse 15000])
    ⟨.open, .undefined⟩ 1 25000 rfl rfl rfl (by decide) rfl

/-! ### Probe responses and the pending forced-termination timer -/

/-- A liveness probe response: `{id: 2, result: true}`. -/
def pongMsg : JsonVal := .obj [("id", .num 2), ("result", .bool true)]

/-- A text frame whose payload parses delivers the parsed value to the
classification body. -/
theorem onmessageFn_str (cfg : Config) (s : Sys) (c : ConnHandle)
    (v : JsonVal) (hws : s.ws = some c) :
    onmessageFn cfg s (.strFrame (some v)) = dispatch cfg s c v := by
  unfold onmessageFn
  rw [hws]

/-- Processing a probe response when a probe is outstanding: the dispatcher
takes the health-check branch and clears the timer referenced by the
`pingTimeout` handle, nulling the handle. -/
theorem dispatch_pong (cfg : Config) (s : Sys) (c : ConnHandle) (h : Nat)
    (hpt : s.pingTimeout = some h) :
    dispatch cfg s c pongMsg =
      { s with internalLogLevels := s.internalLogLevels ++ [.debug],
               timers := eraseTimer s.timers h, pingTimeout := none } := by
  have hb1 : jsEqB (jsPropOpt pongMsg "id") (.num 1) = false := rfl
  have hb2 : (jsEqB (jsPropOpt pongMsg "id") (.num 2) &&
      jsEqB (jsPropOpt pongMsg "result") (.bool true)) = true := rfl
  unfold dispatch
  rw [hb1, hb2]
  simp only [Bool.false_eq_true, if_false, if_true, emitLog_eq]
  rw [hpt]

/-- The events up to (excluding) the pong in the C4 counterexample run:
open, keep-alive tick at 10 s (probe 1, deadline timer id 1 due at 25 s),
keep-alive tick at 20 s (probe 2, deadline timer id 2 due at 35 s,
overwriting the `pingTimeout` handle), then 2 s pass. -/
def c4pre : List MEv :=
  [.openEv, .elapse 10000, .fireTimer 0, .elapse 10000, .fireTimer 0,
    .elapse 2000]

/-- C4 counterexample: with `cfgA` the probe timeout (15 s) is not less
than the keep-alive interval (10 s).  A probe response processed at 22 s —
before either outstanding probe deadline (25 s and 35 s) — cancels only the
timer referenced by the overwritten `pingTimeout` handle; the first probe's
forced-termination timer survives the pong, fires at 25 s and terminates
the connection, after which the close schedules a reconnect.  This refutes
the claim that a timely probe response always cancels the pending
forced-termination timer and leaves the connection open with no
reconnect. -/
theorem c4_counterexample :
    effPong cfgA ≥ effKeepAlive cfgA ∧
    (runTrace cfgA c4pre).now = 22000 ∧
    (⟨1, 25000, .pingDeadline, none⟩ : Timer) ∈ (runTrace cfgA c4pre).timers ∧
    (⟨1, 25000, .pingDeadline, none⟩ : Timer) ∈
      (runTrace cfgA (c4pre ++ [.msgEv (.strFrame (some pongMsg))])).timers ∧
    (runTrace cfgA (c4pre ++ [.msgEv (.strFrame (some pongMsg)),
      .elapse 3000, .fireTimer 1])).terminations = 1 ∧
    (runTrace cfgA (c4pre ++ [.msgEv (.strFrame (some pongMsg)),
      .elapse 3000, .fireTimer 1, .closeEv])).scheduledReconnects.length
      = 1 := by
  refine ⟨by decide, rfl, by decide, by decide, rfl, rfl⟩

/-- C4 amended: a probe response cancels the forced-termination timer
currently referenced by the `pingTimeout` handle and nulls the handle; when
that is the only pending forced-termination timer (as holds whenever the
probe timeout is shorter than the keep-alive interval, so at most one probe
is outstanding), no forced-termination timer remains, the connection stays
open, and no reconnect or termination occurs.  When a second probe has
overwritten the handle, the earlier timer is not cancelled (see the
counterexample). -/
theorem c4_pong_cancels_tracked_timer (cfg : Config) (s : Sys)
    (c : ConnHandle) (h : Nat)
    (hws : s.ws = some c) (hpt : s.pingTimeout = some h)
    (honly : ∀ t ∈ s.timers, t.kind = TimerKind.pingDeadline → t.id = h) :
    (step cfg s (.msgEv (.strFrame (some pongMsg)))).pingTimeout = none ∧
    (∀ t ∈ (step cfg s (.msgEv (.strFrame (some pongMsg)))).timers,
      t.kind ≠ TimerKind.pingDeadline) ∧
    (step cfg s (.msgEv (.strFrame (some pongMsg)))).ws = some c ∧
    (step cfg s (.msgEv (.strFrame (some pongMsg)))).scheduledReconnects =
      s.scheduledReconnects ∧
    (step cfg s (.msgEv (.strFrame (some pongMsg)))).terminations =
      s.terminations := by
  have hd : step cfg s (.msgEv (.strFrame (some pongMsg))) =
      { s with internalLogLevels := s.internalLogLevels ++ [.debug],
               timers := eraseTimer s.timers h, pingTimeout := none } := by
    show onmessageFn cfg s (.strFrame (some pongMsg)) = _
    rw [onmessageFn_str cfg s c pongMsg hws]
    exact dispatch_pong cfg s c h hpt
  rw [hd]
  refine ⟨rfl, ?_, hws, rfl, rfl⟩
  intro t htm hk
  have hmem := List.mem_filter.1 htm
  have hid := honly t hmem.1 hk
  have : (t.id != h) = true := hmem.2
  rw [hid] at this
  simp at this

/-- Witness for the amended C4 at a concrete run with a single outstanding
probe: the probe is sent at 10 s and the pong processed at 11 s, well
before the 25 s deadline. -/
theorem c4_pong_cancels_tracked_timer_witness :
    (step cfgA (runTrace cfgA [.openEv, .elapse 10000, .fireTimer 0,
      .elapse 1000]) (.msgEv (.strFrame (some pongMsg)))).pingTimeout
      = none ∧
    (∀ t ∈ (step cfgA (runTrace cfgA [.openEv, .elapse 10000, .fireTimer 0,
      .elapse 1000]) (.msgEv (.strFrame (some pongMsg)))).timers,
      t.kind ≠ TimerKind.pingDeadline) ∧
    (step cfgA (runTrace cfgA [.openEv, .elapse 10000, .fireTimer 0,
      .elapse 1000]) (.msgEv (.strFrame (some pongMsg)))).ws =
      some ⟨.open, .undefined⟩ ∧
    (step cfgA (runTrace cfgA [.openEv, .elapse 10000, .fireTimer 0,
      .elapse 1000])
        (.msgEv (.strFrame (some pongMsg)))).scheduledReconnects =
      (runTrace cfgA [.openEv, .elapse 10000, .fireTimer 0,
        .elapse 1000]).scheduledReconnects ∧
    (step cfgA (runTrace cfgA [.openEv, .elapse 10000, .fireTimer 0,
      .elapse 1000]) (.msgEv (.strFrame (some pongMsg)))).terminations =
      (runTrace cfgA [.openEv, .elapse 10000, .fireTimer 0,
        .elapse 1000]).terminations :=
  c4_pong_cancels_tracked_timer cfgA
    (runTrace cfgA [.openEv, .elapse 10000, .fireTimer 0, .elapse 1000])
    ⟨.open, .undefined⟩ 1 rfl rfl (by decide)

/-! ### Message classification: dropped frames, parse failures, dispatch -/

/-- A parsed message that matches none of the three classifications — and,
when its method is "eth_subscription", has a non-nullish params field whose
subscription value does not strictly equal the stored one — falls through
the dispatcher with no effect at all. -/
theorem dispatch_drop (cfg : Config) (s : Sys) (c : ConnHandle) (v : JsonVal)
    (h1 : jsEqB (jsPropOpt v "id") (.num 1) = false)
    (h2 : (jsEqB (jsPropOpt v "id") (.num 2) &&
      jsEqB (jsPropOpt v "result") (.bool true)) = false)
    (h3 : jsEqB (jsPropOpt v "method") (.str "eth_subscription") = false ∨
      (nullish (jsProp v "params") = false ∧
        jsEqB (jsProp (jsProp v "params") "subscription") c.subscriptionId =
          false)) :
    dispatch cfg s c v = s := by
  unfold dispatch
  rw [h1, h2]
  rcases h3 with h3 | ⟨h3a, h3b⟩
  · rw [h3]
    simp
  · rcases hm : jsEqB (jsPropOpt v "method") (.str "eth_subscription")
      with _ | _
    · simp
    · simp [h3a, h3b]

/-- C5 counterexample: the message `{method: "eth_subscription"}` parses
successfully and matches none of the three classifications (no id, and its
subscription cannot be compared), yet the handler does not drop it quietly:
evaluating `parsedData.params.subscription` on the absent params object
throws a TypeError, which escapes the handler. -/
theorem c5_counterexample :
    (runTrace cfgA [.openEv, .msgEv (.strFrame (some
      (.obj [("method", .str "eth_subscription")])))]).uncaughtErrors = 1 ∧
    (runTrace cfgA [.openEv, .msgEv (.strFrame (some
      (.obj [("method", .str "eth_subscription")])))]).callbackCalls = [] :=
  ⟨rfl, rfl⟩

/-- C5 amended: every successfully parsed inbound message matching none of
the three classifications is dropped with no state change, no callback and
no error — provided it is not a message whose method is "eth_subscription"
with an absent/null params field; such a message instead makes the handler
throw (see the counterexample). -/
theorem c5_unclassified_dropped (cfg : Config) (s : Sys) (c : ConnHandle)
    (v : JsonVal) (hws : s.ws = some c)
    (h1 : jsEqB (jsPropOpt v "id") (.num 1) = false)
    (h2 : (jsEqB (jsPropOpt v "id") (.num 2) &&
      jsEqB (jsPropOpt v "result") (.bool true)) = false)
    (h3 : jsEqB (jsPropOpt v "method") (.str "eth_subscription") = false ∨
      (nullish (jsProp v "params") = false ∧
        jsEqB (jsProp (jsProp v "params") "subscription") c.subscriptionId =
          false)) :
    step cfg s (.msgEv (.strFrame (some v))) = s := by
  show onmessageFn cfg s (.strFrame (some v)) = s
  rw [onmessageFn_str cfg s c v hws]
  exact dispatch_drop cfg s c v h1 h2 h3

/-- Witness for the amended C5: a message with an unknown id is dropped
with no effect. -/
theorem c5_unclassified_dropped_witness :
    step cfgA (runTrace cfgA [.openEv])
      (.msgEv (.strFrame (some (.obj [("id", .num 99)])))) =
      runTrace cfgA [.openEv] :=
  c5_unclassified_dropped cfgA (runTrace cfgA [.openEv]) ⟨.open, .undefined⟩
    (.obj [("id", .num 99)]) rfl rfl rfl (Or.inl rfl)

/-- A text frame whose payload fails to parse runs only the catch branch. -/
theorem onmessageFn_parsefail (cfg : Config) (s : Sys) (c : ConnHandle)
    (hws : s.ws = some c) :
    onmessageFn cfg s (.strFrame none) =
      emitLog s .error "Failed to parse JSON from WebSocket message."
        [.undefined] := by
  unfold onmessageFn
  rw [hws]

/-- C6: a text frame whose payload fails to parse is caught: the handler
returns normally (no uncaught error is recorded), the connection, timers
and callbacks are untouched, and the sole effect is a call to the internal
log helper at error severity — which, because of the shadowed `args` rest
parameter, performs no call to the configured sink. -/
theorem c6_parse_failure_caught (cfg : Config) (s : Sys) (c : ConnHandle)
    (hws : s.ws = some c) :
    step cfg s (.msgEv (.strFrame none)) =
      { s with internalLogLevels := s.internalLogLevels ++ [.error] } := by
  show onmessageFn cfg s (.strFrame none) = _
  rw [onmessageFn_parsefail cfg s c hws, emitLog_eq]

/-- Witness for C6: a malformed frame received on an open connection. -/
theorem c6_parse_failure_caught_witness :
    step cfgA (runTrace cfgA [.openEv]) (.msgEv (.strFrame none)) =
      { runTrace cfgA [.openEv] with
        internalLogLevels :=
          (runTrace cfgA [.openEv]).internalLogLevels ++ [.error] } :=
  c6_parse_failure_caught cfgA (runTrace cfgA [.openEv]) ⟨.open, .undefined⟩
    rfl

/-- A subscribe response carrying no result at all: `{id: 1}`. -/
def emptyResultResponse : JsonVal := .obj [("id", .num 1)]

/-- A subscription notification with no subscription field in its params. -/
def noSubNotif : JsonVal :=
  .obj [("method", .str "eth_subscription"),
        ("params", .obj [("result", .str "raw")])]

/-- C7 counterexample: after the subscribe response `{id: 1}` (malformed:
no result), `subscriptionId` holds `undefined`; the notification
`{method: "eth_subscription", params: {result: ...}}` — which cannot be
matched to any known subscription identifier — nevertheless satisfies
`params.subscription === subscriptionId` (`undefined === undefined`), so
the dispatcher treats it as matched and invokes the callback instead of
dropping it. -/
theorem c7_counterexample :
    (runTrace cfgA [.openEv,
      .msgEv (.strFrame (some emptyResultResponse))]).ws =
      some ⟨.open, .undefined⟩ ∧
    (runTrace cfgA [.openEv, .msgEv (.strFrame (some emptyResultResponse)),
      .msgEv (.strFrame (some noSubNotif))]).callbackCalls = [none] :=
  ⟨rfl, rfl⟩

theorem jsEqB_undefined_right (x : JsonVal) (hx : x ≠ .undefined) :
    jsEqB x .undefined = false := by
  cases x <;> first | rfl | exact absurd rfl hx

/-- C7 amended: after a subscribe response with an empty or malformed
result, `subscriptionId` holds `undefined` ("unknown"), and every
subsequent notification whose params carry a present (non-undefined)
subscription value is dropped without invoking the callback; a notification
whose subscription field is itself absent, however, strictly equals the
undefined identifier and is not dropped (see the counterexample). -/
theorem c7_unknown_sub_notifications_dropped (cfg : Config) (s : Sys)
    (c : ConnHandle) (v : JsonVal)
    (hws : s.ws = some c) (hsub : c.subscriptionId = .undefined)
    (h1 : jsEqB (jsPropOpt v "id") (.num 1) = false)
    (h2 : (jsEqB (jsPropOpt v "id") (.num 2) &&
      jsEqB (jsPropOpt v "result") (.bool true)) = false)
    (hp : nullish (jsProp v "params") = false)
    (hdef : jsProp (jsProp v "params") "subscription" ≠ .undefined) :
    step cfg s (.msgEv (.strFrame (some v))) = s := by
  show onmessageFn cfg s (.strFrame (some v)) = s
  rw [onmessageFn_str cfg s c v hws]
  refine dispatch_drop cfg s c v h1 h2 (Or.inr ⟨hp, ?_⟩)
  rw [hsub]
  exact jsEqB_undefined_right _ hdef

/-- Witness for the amended C7: with `subscriptionId` undefined after the
malformed response, a notification bearing a concrete subscription string
is dropped. -/
theorem c7_unknown_sub_notifications_dropped_witness :
    step cfgA
      (runTrace cfgA [.openEv, .msgEv (.strFrame (some emptyResultResponse))])
      (.msgEv (.strFrame (some (.obj [("method", .str "eth_subscription"),
        ("params", .obj [("subscription", .str "0xother")])])))) =
      runTrace cfgA [.openEv,
        .msgEv (.strFrame (some emptyResultResponse))] :=
  c7_unknown_sub_notifications_dropped cfgA
    (runTrace cfgA [.openEv, .msgEv (.strFrame (some emptyResultResponse))])
    ⟨.open, .undefined⟩
    (.obj [("method", .str "eth_subscription"),
      ("params", .obj [("subscription", .str "0xother")])])
    rfl rfl rfl rfl rfl (fun hx => JsonVal.noConfusion hx)

/-- C8: a notification whose subscription value strictly equals the stored
`subscriptionId`, when the decode function recognizes nothing in its
payload (returns null), is recovered locally: the caller's callback is
invoked exactly once with the null result, the handler returns normally —
no uncaught error, no termination, no state change beyond the callback
record and an internal info log. -/
theorem c8_decode_failure_invokes_callback_with_none (cfg : Config)
    (s : Sys) (c : ConnHandle) (v : JsonVal)
    (hws : s.ws = some c) (hcb : cfg.hasCallback = true)
    (h1 : jsEqB (jsPropOpt v "id") (.num 1) = false)
    (h2 : (jsEqB (jsPropOpt v "id") (.num 2) &&
      jsEqB (jsPropOpt v "result") (.bool true)) = false)
    (hm : jsEqB (jsPropOpt v "method") (.str "eth_subscription") = true)
    (hp : nullish (jsProp v "params") = false)
    (hmatch : jsEqB (jsProp (jsProp v "params") "subscription")
      c.subscriptionId = true)
    (hdec : cfg.decode (jsProp (jsProp v "params") "result") = none) :
    step cfg s (.msgEv (.strFrame (some v))) =
      { s with internalLogLevels := s.internalLogLevels ++ [.info],
               callbackCalls := s.callbackCalls ++ [none] } := by
  show onmessageFn cfg s (.strFrame (some v)) = _
  rw [onmessageFn_str cfg s c v hws]
  unfold dispatch
  rw [h1, h2, hm, hp, hmatch]
  simp only [Bool.false_eq_true, if_false, if_true, emitLog_eq, hdec, hcb]

/-- A successful subscribe response recording the id "0xS". -/
def subResponse : JsonVal := .obj [("id", .num 1), ("result", .str "0xS")]

/-- A matching notification whose raw payload decodes to nothing. -/
def junkNotif : JsonVal :=
  .obj [("method", .str "eth_subscription"),
        ("params", .obj [("subscription", .str "0xS"),
          ("result", .str "junk")])]

/-- Witness for C8: subscription established as "0xS", then a matching
notification with an unrecognizable payload invokes the callback once with
null. -/
theorem c8_decode_failure_invokes_callback_with_none_witness :
    step cfgA
      (runTrace cfgA [.openEv, .msgEv (.strFrame (some subResponse))])
      (.msgEv (.strFrame (some junkNotif))) =
      { runTrace cfgA [.openEv, .msgEv (.strFrame (some subResponse))] with
        internalLogLevels :=
          (runTrace cfgA [.openEv,
            .msgEv (.strFrame (some subResponse))]).internalLogLevels ++
            [.info],
        callbackCalls :=
          (runTrace cfgA [.openEv,
            .msgEv (.strFrame (some subResponse))]).callbackCalls ++
            [none] } :=
  c8_decode_failure_invokes_callback_with_none cfgA
    (runTrace cfgA [.openEv, .msgEv (.strFrame (some subResponse))])
    ⟨.open, .str "0xS"⟩ junkNotif rfl rfl rfl rfl rfl rfl rfl rfl

/-- C10: the caller-supplied log sink is never invoked.  In the internal
log helper, the rest parameter `args` shadows the configuration object, so
`args.log` reads the always-undefined "log" property of the rest-argument
array and the guarded sink call is unreachable for every level, message and
argument list; consequently no run of the listener, under any
configuration and any event trace, ever performs a sink invocation. -/
theorem c10_sink_never_invoked :
    (∀ (level : LogLevel) (message : String) (rest : List JsonVal),
      logHelper level message rest = []) ∧
    ∀ (cfg : Config) (tr : List MEv), (runTrace cfg tr).sinkCalls = 0 := by
  refine ⟨logHelper_nil, fun cfg tr => ?_⟩
  show (runFrom cfg start tr).sinkCalls = 0
  rw [runFrom_sinkCalls]
  rfl

end REL
